import Mathlib

/-!
Verification of the pi-dashboard repository: a shallow embedding of the
media library scanner (`src/pi_dashboard/media/player.py`), the camera
feed facade (`src/pi_dashboard/camera/camera.py`), the system monitor
(`src/pi_dashboard/system/__init__.py`) and the configuration loader
(`src/pi_dashboard/main.py`), together with theorems settling the
specification claims about them.

External resources (the filesystem walk, the OpenCV capture device and
JPEG encoder, the psutil counters, the thermal sensor file, the JSON
files on disk) enter the embedding as explicit parameters, so every
operation is a pure function of its inputs.
-/

namespace PiDashboard

/-! ## String helpers

Python compares strings lexicographically by code point, and `str.lower`
maps each character to lower case.  `lowerStr` models `str.lower` and
`strLeb` models `s <= t` on code-point sequences.
-/

/-- Model of Python `str.lower` (character-wise lower-casing). -/
def lowerStr (s : String) : String := ⟨s.data.map Char.toLower⟩

/-- Lexicographic order on code-point sequences, Python `s <= t`. -/
def strLeb : List Char → List Char → Bool
  | [], _ => true
  | _ :: _, [] => false
  | a :: as, b :: bs =>
    if a.toNat < b.toNat then true
    else if b.toNat < a.toNat then false
    else strLeb as bs

/-! ## Media library (`MediaLibrary` in `media/player.py`) -/

/-- One entry of the recursive directory walk (`Path.rglob('*')`):
its directory components relative to the library root, its final name
component, whether it is a regular file, and its stat data. -/
structure FSEntry where
  dirs : List String
  fileName : String
  isFile : Bool
  size : Nat
  modified : Int
  deriving Repr, DecidableEq

/-- Index of the last dot in a name, as in Python `str.rfind('.')`. -/
def rfindDot (cs : List Char) : Option Nat :=
  match cs.reverse.findIdx? (· == '.') with
  | some j => some (cs.length - 1 - j)
  | none => none

/-- Model of `pathlib.PurePath.stem` and `.suffix`: split the final name
component at its last dot when that dot is neither first nor last. -/
def splitStemSuffix (name : String) : String × String :=
  let cs := name.data
  match rfindDot cs with
  | some i =>
    if 0 < i ∧ i < cs.length - 1 then (⟨cs.take i⟩, ⟨cs.drop i⟩)
    else (name, "")
  | none => (name, "")

def FSEntry.stem (e : FSEntry) : String := (splitStemSuffix e.fileName).1

def FSEntry.suffix (e : FSEntry) : String := (splitStemSuffix e.fileName).2

/-- The lower-cased extension, `file_path.suffix.lower()`. -/
def FSEntry.suffixLower (e : FSEntry) : String := lowerStr e.suffix

/-- `str(file_path.relative_to(self.library_path))`. -/
def FSEntry.relativePath (e : FSEntry) : String :=
  (e.dirs.map (· ++ "/")).foldr (· ++ ·) "" ++ e.fileName

namespace MediaLibrary

def SUPPORTED_VIDEO : List String := [".mp4", ".mkv", ".avi", ".mov", ".m4v", ".webm"]

def SUPPORTED_AUDIO : List String := [".mp3", ".m4a", ".wav", ".flac", ".ogg"]

end MediaLibrary

/-- The dictionary appended to `media_files` for each matching file. -/
structure MediaRecord where
  name : String
  filename : String
  path : String
  relative_path : String
  type : String
  extension : String
  size : Nat
  modified : Int
  deriving Repr, DecidableEq

namespace MediaLibrary

/-- Whether the walk entry is a regular file with a supported extension. -/
def eligible (e : FSEntry) : Bool :=
  e.isFile && (SUPPORTED_VIDEO.contains e.suffixLower || SUPPORTED_AUDIO.contains e.suffixLower)

/-- The record built for an eligible entry (the dict literal in `scan`). -/
def recordOf (libraryPath : String) (e : FSEntry) : MediaRecord :=
  { name := e.stem
    filename := e.fileName
    path := libraryPath ++ "/" ++ e.relativePath
    relative_path := e.relativePath
    type := if SUPPORTED_VIDEO.contains e.suffixLower then "video" else "audio"
    extension := e.suffixLower
    size := e.size
    modified := e.modified }

/-- The body of the `rglob` loop: a record for files with supported
extensions, nothing otherwise. -/
def mkMediaRecord (libraryPath : String) (e : FSEntry) : Option MediaRecord :=
  if e.isFile then
    if SUPPORTED_VIDEO.contains e.suffixLower || SUPPORTED_AUDIO.contains e.suffixLower then
      some (recordOf libraryPath e)
    else none
  else none

/-- The sort key comparison of `scan`: `x['name'].lower()` under Python
string order. -/
def nameLeb (a b : MediaRecord) : Bool :=
  strLeb (lowerStr a.name).data (lowerStr b.name).data

def nameKeyLe (a b : MediaRecord) : Prop := nameLeb a b = true

instance : DecidableRel nameKeyLe := fun a b => instDecidableEqBool (nameLeb a b) true

instance : IsTotal MediaRecord nameKeyLe := by
  constructor
  intro a b
  unfold nameKeyLe nameLeb
  generalize (lowerStr a.name).data = as
  generalize (lowerStr b.name).data = bs
  induction as generalizing bs with
  | nil => exact Or.inl rfl
  | cons x xs ih =>
    cases bs with
    | nil => exact Or.inr rfl
    | cons y ys =>
      by_cases hxy : x.toNat < y.toNat
      · exact Or.inl (by simp [strLeb, hxy])
      · by_cases hyx : y.toNat < x.toNat
        · exact Or.inr (by simp [strLeb, hyx])
        · rcases ih ys with h | h
          · exact Or.inl (by simp [strLeb, hxy, hyx, h])
          · exact Or.inr (by simp [strLeb, hxy, hyx, h])

instance : IsTrans MediaRecord nameKeyLe := by
  have key : ∀ as bs cs : List Char,
      strLeb as bs = true → strLeb bs cs = true → strLeb as cs = true := by
    intro as
    induction as with
    | nil => intro bs cs _ _; rfl
    | cons x xs ih =>
      intro bs cs h1 h2
      cases bs with
      | nil => simp [strLeb] at h1
      | cons y ys =>
        cases cs with
        | nil => simp [strLeb] at h2
        | cons z zs =>
          by_cases hxz : x.toNat < z.toNat
          · simp [strLeb, hxz]
          · by_cases hzx : z.toNat < x.toNat
            · exfalso
              by_cases hxy : x.toNat < y.toNat
              · by_cases hyz : y.toNat < z.toNat
                · omega
                · by_cases hzy : z.toNat < y.toNat
                  · simp [strLeb, hyz, hzy] at h2
                  · omega
              · by_cases hyx : y.toNat < x.toNat
                · simp [strLeb, hxy, hyx] at h1
                · have hyz : ¬ y.toNat < z.toNat := by omega
                  have hzy : z.toNat < y.toNat := by omega
                  simp [strLeb, hyz, hzy] at h2
            · by_cases hxy : x.toNat < y.toNat
              · have hyz : ¬ y.toNat < z.toNat := by omega
                have hzy : z.toNat < y.toNat := by omega
                simp [strLeb, hyz, hzy] at h2
              · by_cases hyx : y.toNat < x.toNat
                · simp [strLeb, hxy, hyx] at h1
                · have h1' : strLeb xs ys = true := by simpa [strLeb, hxy, hyx] using h1
                  have h2' : strLeb ys zs = true := by
                    have hyz : ¬ y.toNat < z.toNat := by omega
                    have hzy : ¬ z.toNat < y.toNat := by omega
                    simpa [strLeb, hyz, hzy] using h2
                  simpa [strLeb, hxz, hzx] using ih ys zs h1' h2'
  exact ⟨fun a b c hab hbc => key _ _ _ hab hbc⟩

/-- `MediaLibrary.scan`: an empty result when the library path does not
exist, otherwise the records of the walk, stably sorted by lower-cased
name.  The directory walk is supplied as the entry list `entries`. -/
def scan (libraryPath : String) (pathExists : Bool) (entries : List FSEntry) :
    List MediaRecord :=
  if pathExists = false then []
  else List.insertionSort nameKeyLe (entries.filterMap (mkMediaRecord libraryPath))

end MediaLibrary

/-- The mutable part of a `MediaLibrary` object: its path and the stored
`media_files` list. -/
structure MediaLibraryState where
  library_path : String
  media_files : List MediaRecord
  deriving Repr, DecidableEq

/-- `MediaLibrary.scan` acting on the object state: `media_files` is
first reset to `[]` and then, when the path exists, set to the freshly
computed listing, which is also returned. -/
def MediaLibrary.scanState (st : MediaLibraryState) (pathExists : Bool)
    (entries : List FSEntry) : MediaLibraryState × List MediaRecord :=
  let st1 : MediaLibraryState := { st with media_files := [] }
  if pathExists = false then (st1, st1.media_files)
  else
    let files :=
      List.insertionSort nameKeyLe (entries.filterMap (mkMediaRecord st.library_path))
    ({ st1 with media_files := files }, files)

/-! ## Camera feed (`CameraFeed` and `CameraModule` in `camera/camera.py`) -/

/-- The state of one `CameraFeed` object; the captured frame type is
abstract.  `__init__` leaves `camera` and `frame` at `None`. -/
structure CameraFeedState (α : Type) where
  camera_id : Int
  name : String
  camera : Option Nat
  frame : Option α
  running : Bool
  thread : Option Nat

/-- `CameraFeed.__init__`. -/
def CameraFeed.init (α : Type) (camera_id : Int) (name : String) : CameraFeedState α :=
  { camera_id := camera_id, name := name, camera := none, frame := none,
    running := false, thread := none }

/-- `CameraFeed.get_frame_jpeg`: absent when no frame has been captured;
otherwise the encoder result, where `none` covers both a failed
(`ret = False`) and a throwing `cv2.imencode`. -/
def CameraFeed.get_frame_jpeg {α : Type} (s : CameraFeedState α)
    (imencode : α → Option (List Nat)) : Option (List Nat) :=
  match s.frame with
  | none => none
  | some fr => imencode fr

/-- `CameraFeed.get_frame_base64`: the base64 text of the JPEG bytes when
they are truthy (non-empty), absent otherwise. -/
def CameraFeed.get_frame_base64 {α : Type} (s : CameraFeedState α)
    (imencode : α → Option (List Nat)) (b64encode : List Nat → String) : Option String :=
  match CameraFeed.get_frame_jpeg s imencode with
  | some bs => if bs.isEmpty then none else some (b64encode bs)
  | none => none

/-- `CameraModule.add_camera` over the feeds dictionary, modelled as an
association list from camera id to feed name; `startOk` says whether
`CameraFeed.start` would succeed for a newly created feed. -/
def CameraModule.add_camera (feeds : List (Int × String)) (camera_id : Int)
    (name : String) (startOk : Bool) : List (Int × String) × Bool :=
  if feeds.any (fun p => p.1 == camera_id) then (feeds, true)
  else if startOk then (feeds ++ [(camera_id, name)], true)
  else (feeds, false)

/-! ## System monitor (`SystemMonitor` and `SystemModule` in `system/__init__.py`) -/

/-- Python `round` on an exact value: round half to even. -/
def pyRound (q : ℚ) : ℤ :=
  let f := ⌊q⌋
  let r := q - (f : ℚ)
  if r < 1/2 then f
  else if 1/2 < r then f + 1
  else if f % 2 = 0 then f else f + 1

/-- `round(q, 2)`. -/
def roundTo2 (q : ℚ) : ℚ := (pyRound (q * 100) : ℚ) / 100

/-- `round(q, 1)`. -/
def roundTo1 (q : ℚ) : ℚ := (pyRound (q * 10) : ℚ) / 10

/-- The `psutil.virtual_memory()` counters that `get_memory_usage` reads. -/
structure VirtualMemory where
  total : Nat
  available : Nat
  used : Nat
  percent : ℚ
  deriving Repr, DecidableEq

/-- The dictionary returned by `SystemMonitor.get_memory_usage`. -/
structure MemoryUsage where
  total : Nat
  available : Nat
  used : Nat
  percent : ℚ
  total_gb : ℚ
  used_gb : ℚ
  available_gb : ℚ
  deriving Repr, DecidableEq

def SystemMonitor.get_memory_usage (mem : VirtualMemory) : MemoryUsage :=
  { total := mem.total
    available := mem.available
    used := mem.used
    percent := roundTo1 mem.percent
    total_gb := roundTo2 ((mem.total : ℚ) / 1024 ^ 3)
    used_gb := roundTo2 ((mem.used : ℚ) / 1024 ^ 3)
    available_gb := roundTo2 ((mem.available : ℚ) / 1024 ^ 3) }

/-- The `psutil.disk_usage('/')` counters that `get_disk_usage` reads. -/
structure DiskCounters where
  total : Nat
  used : Nat
  free : Nat
  percent : ℚ
  deriving Repr, DecidableEq

/-- The dictionary returned by `SystemMonitor.get_disk_usage`. -/
structure DiskUsage where
  total : Nat
  used : Nat
  free : Nat
  percent : ℚ
  total_gb : ℚ
  used_gb : ℚ
  free_gb : ℚ
  deriving Repr, DecidableEq

def SystemMonitor.get_disk_usage (disk : DiskCounters) : DiskUsage :=
  { total := disk.total
    used := disk.used
    free := disk.free
    percent := roundTo1 disk.percent
    total_gb := roundTo2 ((disk.total : ℚ) / 1024 ^ 3)
    used_gb := roundTo2 ((disk.used : ℚ) / 1024 ^ 3)
    free_gb := roundTo2 ((disk.free : ℚ) / 1024 ^ 3) }

/-- `SystemMonitor.get_temperature`: the sensor file content (millidegrees)
when `/sys/class/thermal/thermal_zone0/temp` is readable, `none` when the
sensor is absent.  The Python function always returns a float: `0.0` on
the exception path, never `None` — the `Option` codomain records exactly
that. -/
def SystemMonitor.get_temperature (sensor : Option ℚ) : Option ℚ :=
  match sensor with
  | some v => some (roundTo1 (v / 1000))
  | none => some 0

/-- The mutable fields of a `SystemModule` object, plus a counter of the
monitor threads spawned so far (so that thread creation is observable). -/
structure SystemModuleState where
  update_interval : Nat
  running : Bool
  threadsStarted : Nat
  thread : Option Nat
  deriving Repr, DecidableEq

/-- `SystemModule.__init__` with no app: not running, no thread. -/
def SystemModule.init (update_interval : Nat) : SystemModuleState :=
  { update_interval := update_interval, running := false, threadsStarted := 0,
    thread := none }

/-- `SystemModule.start_monitoring`: an early return when already
running, otherwise set the flag and spawn the monitor thread. -/
def SystemModule.start_monitoring (s : SystemModuleState) : SystemModuleState :=
  if s.running then s
  else
    { s with running := true, thread := some s.threadsStarted,
             threadsStarted := s.threadsStarted + 1 }

/-- The `system_stats_start` socket handler: start only when not running. -/
def SystemModule.handle_stats_start (s : SystemModuleState) : SystemModuleState :=
  if s.running = false then SystemModule.start_monitoring s else s

/-- `SystemModule.stop_monitoring`: clear the flag (the join changes no
module state). -/
def SystemModule.stop_monitoring (s : SystemModuleState) : SystemModuleState :=
  { s with running := false }

/-- The `system_stats_update` emissions of `n` further iterations of
`_monitor_loop`: each iteration tests the running flag first and emits
only when it is still set; the loop body never changes the module state,
so the flag seen at every iteration is the one in `s`. -/
def SystemModule.loop_emissions (s : SystemModuleState) : Nat → List Bool
  | 0 => []
  | n + 1 => if s.running then true :: SystemModule.loop_emissions s n else []

/-! ## Configuration loading (`PiDashboard` in `main.py`) -/

structure DisplayConfig where
  width : Nat
  height : Nat
  fullscreen : Bool
  hide_cursor : Bool
  orientation : Nat
  deriving Repr, DecidableEq

structure ServerConfig where
  host : String
  port : Nat
  debug : Bool
  deriving Repr, DecidableEq

structure ModuleFlag where
  enabled : Bool
  deriving Repr, DecidableEq

structure ModulesConfig where
  camera : ModuleFlag
  media : ModuleFlag
  system : ModuleFlag
  weather : ModuleFlag
  deriving Repr, DecidableEq

structure PowerConfig where
  shutdown_delay : Nat
  boot_optimization : Bool
  deriving Repr, DecidableEq

structure Config where
  display : DisplayConfig
  server : ServerConfig
  modules : ModulesConfig
  power : PowerConfig
  deriving Repr, DecidableEq

/-- `PiDashboard._get_default_config`. -/
def Dashboard.get_default_config : Config :=
  { display := { width := 800, height := 480, fullscreen := true,
                 hide_cursor := true, orientation := 0 }
    server := { host := "0.0.0.0", port := 5000, debug := false }
    modules := { camera := ⟨true⟩, media := ⟨true⟩, system := ⟨true⟩, weather := ⟨false⟩ }
    power := { shutdown_delay := 30, boot_optimization := true } }

/-- `PiDashboard._load_config`: the filesystem is the partial map
`fileAt` from a path to the parsed configuration stored there.  With no
explicit path the first existing default location is taken; the chosen
file is loaded when it exists, and otherwise the built-in defaults are
returned. -/
def Dashboard.load_config (fileAt : String → Option Config)
    (config_path : Option String) (default_paths : List String) : Config :=
  let chosen : Option String :=
    match config_path with
    | none => default_paths.find? (fun p => (fileAt p).isSome)
    | some p => some p
  match chosen with
  | some p =>
    match fileAt p with
    | some cfg => cfg
    | none => Dashboard.get_default_config
  | none => Dashboard.get_default_config

/-! ## Structural lemmas about `scan` -/

namespace MediaLibrary

theorem mkMediaRecord_eq (libraryPath : String) (e : FSEntry) :
    mkMediaRecord libraryPath e =
      if eligible e then some (recordOf libraryPath e) else none := by
  unfold mkMediaRecord eligible
  by_cases h1 : e.isFile <;>
    by_cases h2 : SUPPORTED_VIDEO.contains e.suffixLower
        || SUPPORTED_AUDIO.contains e.suffixLower <;>
    simp [h1, h2]

theorem filterMap_mkMediaRecord (libraryPath : String) (entries : List FSEntry) :
    entries.filterMap (mkMediaRecord libraryPath)
      = (entries.filter eligible).map (recordOf libraryPath) := by
  induction entries with
  | nil => rfl
  | cons e es ih =>
    simp only [List.filterMap_cons, List.filter_cons, mkMediaRecord_eq]
    by_cases h : eligible e <;> simp [h, ih]

theorem scan_perm (libraryPath : String) (entries : List FSEntry) :
    (scan libraryPath true entries).Perm
      ((entries.filter eligible).map (recordOf libraryPath)) := by
  unfold scan
  simp only [Bool.true_eq_false, if_false]
  exact (filterMap_mkMediaRecord libraryPath entries) ▸
    List.perm_insertionSort nameKeyLe (entries.filterMap (mkMediaRecord libraryPath))

theorem video_not_audio (s : String) (h : SUPPORTED_VIDEO.contains s = true) :
    SUPPORTED_AUDIO.contains s = false := by
  have hm : s ∈ SUPPORTED_VIDEO := by simpa [SUPPORTED_VIDEO] using h
  fin_cases hm <;> decide

end MediaLibrary

open MediaLibrary in
/-- C1: scanning an existing directory tree yields exactly one record per
regular file whose lower-cased extension is supported (so N matching files
yield N records), the result is sorted by lower-cased name under Python
string order, and every record comes from a supported file, so files with
unsupported extensions contribute no record. -/
theorem scan_count_sorted_excludes (libraryPath : String) (entries : List FSEntry) :
    (scan libraryPath true entries).length = (entries.filter eligible).length
    ∧ List.Sorted nameKeyLe (scan libraryPath true entries)
    ∧ ∀ r ∈ scan libraryPath true entries,
        ∃ e, e ∈ entries ∧ eligible e = true ∧ r = recordOf libraryPath e := by
  refine ⟨?_, ?_, ?_⟩
  · simpa using (scan_perm libraryPath entries).length_eq
  · unfold scan
    simp only [Bool.true_eq_false, if_false]
    exact List.sorted_insertionSort nameKeyLe _
  · intro r hr
    have hr' := (scan_perm libraryPath entries).mem_iff.mp hr
    rcases List.mem_map.mp hr' with ⟨e, he, rfl⟩
    rcases List.mem_filter.mp he with ⟨he1, he2⟩
    exact ⟨e, he1, he2, rfl⟩

open MediaLibrary in
/-- C2: every record produced by `scan` carries the file name, the
absolute path under the library root, the path relative to the root, a
type that is video exactly when the lower-cased extension is in the
supported video set and audio exactly when it is in the supported audio
set, the file size, and the modification time. -/
theorem scan_record_fields (libraryPath : String) (entries : List FSEntry)
    (r : MediaRecord) (hr : r ∈ scan libraryPath true entries) :
    ∃ e, e ∈ entries ∧ e.isFile = true
      ∧ r.filename = e.fileName
      ∧ r.path = libraryPath ++ "/" ++ e.relativePath
      ∧ r.relative_path = e.relativePath
      ∧ (r.type = "video" ↔ SUPPORTED_VIDEO.contains e.suffixLower = true)
      ∧ (r.type = "audio" ↔ SUPPORTED_AUDIO.contains e.suffixLower = true)
      ∧ r.size = e.size ∧ r.modified = e.modified := by
  have hr' := (scan_perm libraryPath entries).mem_iff.mp hr
  rcases List.mem_map.mp hr' with ⟨e, he, rfl⟩
  rcases List.mem_filter.mp he with ⟨he1, he2⟩
  have he2' : e.isFile = true
      ∧ (SUPPORTED_VIDEO.contains e.suffixLower = true
          ∨ SUPPORTED_AUDIO.contains e.suffixLower = true) := by
    simpa [eligible, Bool.and_eq_true, Bool.or_eq_true] using he2
  have hf : e.isFile = true := he2'.1
  have hsup := he2'.2
  refine ⟨e, he1, hf, rfl, rfl, rfl, ?_, ?_, rfl, rfl⟩
  · by_cases hv : SUPPORTED_VIDEO.contains e.suffixLower = true
    · simp [recordOf, hv]
    · simp [recordOf, hv]
  · by_cases hv : SUPPORTED_VIDEO.contains e.suffixLower = true
    · have hna := video_not_audio e.suffixLower hv
      have hv' : e.suffixLower ∈ SUPPORTED_VIDEO := by simpa using hv
      have hna' : e.suffixLower ∉ SUPPORTED_AUDIO := by simpa using hna
      simp [recordOf, hv, hna, hv', hna']
    · have ha : SUPPORTED_AUDIO.contains e.suffixLower = true := by
        rcases hsup with h | h
        · exact absurd h hv
        · exact h
      have hv' : e.suffixLower ∉ SUPPORTED_VIDEO := by simpa using hv
      have ha' : e.suffixLower ∈ SUPPORTED_AUDIO := by simpa using ha
      simp [recordOf, hv, ha, hv', ha']

/-- Witness for C2 at a one-file library. -/
theorem scan_record_fields_witness :
    (MediaLibrary.recordOf "/media" ⟨[], "b.mp4", true, 10, 5⟩
        ∈ MediaLibrary.scan "/media" true [⟨[], "b.mp4", true, 10, 5⟩])
    ∧ ∃ e, e ∈ [(⟨[], "b.mp4", true, 10, 5⟩ : FSEntry)] ∧ e.isFile = true
      ∧ (MediaLibrary.recordOf "/media" ⟨[], "b.mp4", true, 10, 5⟩).filename = e.fileName
      ∧ (MediaLibrary.recordOf "/media" ⟨[], "b.mp4", true, 10, 5⟩).path
          = "/media" ++ "/" ++ e.relativePath
      ∧ (MediaLibrary.recordOf "/media" ⟨[], "b.mp4", true, 10, 5⟩).relative_path
          = e.relativePath
      ∧ ((MediaLibrary.recordOf "/media" ⟨[], "b.mp4", true, 10, 5⟩).type = "video"
          ↔ MediaLibrary.SUPPORTED_VIDEO.contains e.suffixLower = true)
      ∧ ((MediaLibrary.recordOf "/media" ⟨[], "b.mp4", true, 10, 5⟩).type = "audio"
          ↔ MediaLibrary.SUPPORTED_AUDIO.contains e.suffixLower = true)
      ∧ (MediaLibrary.recordOf "/media" ⟨[], "b.mp4", true, 10, 5⟩).size = e.size
      ∧ (MediaLibrary.recordOf "/media" ⟨[], "b.mp4", true, 10, 5⟩).modified = e.modified :=
  ⟨by decide, scan_record_fields "/media" [⟨[], "b.mp4", true, 10, 5⟩]
      (MediaLibrary.recordOf "/media" ⟨[], "b.mp4", true, 10, 5⟩) (by decide)⟩

/-- C3 counterexample: with the thermal sensor absent, `get_temperature`
does not return an absent result, so not every operation on an
unavailable resource yields `None` or an empty collection. -/
theorem temperature_not_absent_counterexample :
    SystemMonitor.get_temperature none ≠ none := by
  simp [SystemMonitor.get_temperature]

/-- C3 amended: operations on unavailable resources neither raise nor
return a structured error: the camera frame getters of a feed that never
opened its device return an absent result, scanning a missing library
path returns the empty list, but an absent temperature sensor yields the
numeric sentinel `0.0`, not an absent result. -/
theorem unavailable_resources_amended (α : Type) (camera_id : Int) (cname : String)
    (imencode : α → Option (List Nat)) (b64encode : List Nat → String)
    (libraryPath : String) (entries : List FSEntry) :
    CameraFeed.get_frame_jpeg (CameraFeed.init α camera_id cname) imencode = none
    ∧ CameraFeed.get_frame_base64 (CameraFeed.init α camera_id cname) imencode b64encode = none
    ∧ MediaLibrary.scan libraryPath false entries = []
    ∧ SystemMonitor.get_temperature none = some 0 :=
  ⟨rfl, rfl, rfl, rfl⟩

/-- C4: when no frame has been captured yet (the frame slot is `None`),
both `get_frame_jpeg` and `get_frame_base64` return an absent result. -/
theorem no_frame_yields_none {α : Type} (s : CameraFeedState α)
    (imencode : α → Option (List Nat)) (b64encode : List Nat → String)
    (h : s.frame = none) :
    CameraFeed.get_frame_jpeg s imencode = none
    ∧ CameraFeed.get_frame_base64 s imencode b64encode = none := by
  have hj : CameraFeed.get_frame_jpeg s imencode = none := by
    unfold CameraFeed.get_frame_jpeg
    rw [h]
  refine ⟨hj, ?_⟩
  unfold CameraFeed.get_frame_base64
  rw [hj]

/-- Witness for C4 on a freshly initialized feed. -/
theorem no_frame_yields_none_witness :
    (CameraFeed.init Nat 0 "Camera").frame = none
    ∧ (CameraFeed.get_frame_jpeg (CameraFeed.init Nat 0 "Camera") (fun _ => none) = none
       ∧ CameraFeed.get_frame_base64 (CameraFeed.init Nat 0 "Camera")
           (fun _ => none) (fun _ => "") = none) :=
  ⟨rfl, no_frame_yields_none (CameraFeed.init Nat 0 "Camera") (fun _ => none) (fun _ => "") rfl⟩

/-- C5: the gigabyte fields of the memory and disk stats equal the byte
counts divided by 1024 cubed and rounded to two decimal places, and this
binary conversion differs from the decimal 1000-based one at the concrete
byte count 1073741824. -/
theorem gb_conversion_binary_units :
    (∀ mem : VirtualMemory,
      (SystemMonitor.get_memory_usage mem).total_gb = roundTo2 ((mem.total : ℚ) / 1024 ^ 3)
      ∧ (SystemMonitor.get_memory_usage mem).used_gb = roundTo2 ((mem.used : ℚ) / 1024 ^ 3)
      ∧ (SystemMonitor.get_memory_usage mem).available_gb
          = roundTo2 ((mem.available : ℚ) / 1024 ^ 3))
    ∧ (∀ disk : DiskCounters,
      (SystemMonitor.get_disk_usage disk).total_gb = roundTo2 ((disk.total : ℚ) / 1024 ^ 3)
      ∧ (SystemMonitor.get_disk_usage disk).used_gb = roundTo2 ((disk.used : ℚ) / 1024 ^ 3)
      ∧ (SystemMonitor.get_disk_usage disk).free_gb = roundTo2 ((disk.free : ℚ) / 1024 ^ 3))
    ∧ roundTo2 ((1073741824 : ℚ) / 1024 ^ 3) ≠ roundTo2 ((1073741824 : ℚ) / 1000 ^ 3) := by
  refine ⟨fun mem => ⟨rfl, rfl, rfl⟩, fun disk => ⟨rfl, rfl, rfl⟩, ?_⟩
  norm_num [roundTo2, pyRound]

/-- C6: starting the monitor while it is already running, directly or
through the `system_stats_start` handler, changes nothing: no new thread
is spawned and the module state is left as it was. -/
theorem start_monitoring_idempotent (s : SystemModuleState) (h : s.running = true) :
    SystemModule.start_monitoring s = s ∧ SystemModule.handle_stats_start s = s := by
  constructor
  · unfold SystemModule.start_monitoring
    simp [h]
  · unfold SystemModule.handle_stats_start
    simp [h]

/-- Witness for C6 on a running module. -/
theorem start_monitoring_idempotent_witness :
    ({ update_interval := 2, running := true, threadsStarted := 1,
       thread := some 0 } : SystemModuleState).running = true
    ∧ (SystemModule.start_monitoring
          { update_interval := 2, running := true, threadsStarted := 1, thread := some 0 }
        = { update_interval := 2, running := true, threadsStarted := 1, thread := some 0 }
      ∧ SystemModule.handle_stats_start
          { update_interval := 2, running := true, threadsStarted := 1, thread := some 0 }
        = { update_interval := 2, running := true, threadsStarted := 1, thread := some 0 }) :=
  ⟨rfl, start_monitoring_idempotent
      { update_interval := 2, running := true, threadsStarted := 1, thread := some 0 } rfl⟩

/-- C7: after `stop_monitoring` the running flag is down, and however
many further iterations the monitor loop takes, the running check fails
first every time, so no further `system_stats_update` event is emitted. -/
theorem stopped_loop_no_emissions (s : SystemModuleState) (n : Nat) :
    (SystemModule.stop_monitoring s).running = false
    ∧ SystemModule.loop_emissions (SystemModule.stop_monitoring s) n = [] := by
  refine ⟨rfl, ?_⟩
  cases n with
  | zero => rfl
  | succ m => simp [SystemModule.loop_emissions, SystemModule.stop_monitoring]

/-- C8: when no configuration file exists at the given path nor at any
default location, the loaded configuration is exactly the built-in
default: camera, media and system modules enabled, host 0.0.0.0, port
5000, debug off. -/
theorem no_config_defaults (fileAt : String → Option Config)
    (config_path : Option String) (default_paths : List String)
    (h1 : ∀ p ∈ default_paths, fileAt p = none)
    (h2 : ∀ p, config_path = some p → fileAt p = none) :
    Dashboard.load_config fileAt config_path default_paths = Dashboard.get_default_config
    ∧ Dashboard.get_default_config.modules.camera.enabled = true
    ∧ Dashboard.get_default_config.modules.media.enabled = true
    ∧ Dashboard.get_default_config.modules.system.enabled = true
    ∧ Dashboard.get_default_config.server.host = "0.0.0.0"
    ∧ Dashboard.get_default_config.server.port = 5000
    ∧ Dashboard.get_default_config.server.debug = false := by
  refine ⟨?_, rfl, rfl, rfl, rfl, rfl, rfl⟩
  unfold Dashboard.load_config
  cases hc : config_path with
  | none =>
    have hfind : default_paths.find? (fun p => (fileAt p).isSome) = none := by
      rw [List.find?_eq_none]
      intro p hp
      simp [h1 p hp]
    simp [hfind]
  | some p =>
    have hp := h2 p hc
    simp [hp]

/-- Witness for C8 with an empty filesystem and no explicit path. -/
theorem no_config_defaults_witness :
    ((∀ p ∈ (["/etc/pi-dashboard/config.json"] : List String),
        (fun _ : String => (none : Option Config)) p = none)
      ∧ (∀ p : String, (none : Option String) = some p →
          (fun _ : String => (none : Option Config)) p = none))
    ∧ (Dashboard.load_config (fun _ => none) none ["/etc/pi-dashboard/config.json"]
          = Dashboard.get_default_config
      ∧ Dashboard.get_default_config.modules.camera.enabled = true
      ∧ Dashboard.get_default_config.modules.media.enabled = true
      ∧ Dashboard.get_default_config.modules.system.enabled = true
      ∧ Dashboard.get_default_config.server.host = "0.0.0.0"
      ∧ Dashboard.get_default_config.server.port = 5000
      ∧ Dashboard.get_default_config.server.debug = false) :=
  ⟨⟨fun _ _ => rfl, fun _ h => Option.noConfusion h⟩,
    no_config_defaults (fun _ => none) none ["/etc/pi-dashboard/config.json"]
      (fun _ _ => rfl) (fun _ h => Option.noConfusion h)⟩

/-- C9: `scan` replaces the stored collection wholesale: whatever
`media_files` held before, afterwards it holds exactly the records of the
current traversal (the same list `scan` returns), and the result does not
depend on the previous contents. -/
theorem scan_replaces_wholesale (st : MediaLibraryState) (pathExists : Bool)
    (entries : List FSEntry) :
    (MediaLibrary.scanState st pathExists entries).1.media_files
        = MediaLibrary.scan st.library_path pathExists entries
    ∧ (MediaLibrary.scanState st pathExists entries).2
        = MediaLibrary.scan st.library_path pathExists entries
    ∧ ∀ prev : List MediaRecord,
        MediaLibrary.scanState ⟨st.library_path, prev⟩ pathExists entries
          = MediaLibrary.scanState st pathExists entries := by
  refine ⟨?_, ?_, ?_⟩
  · cases pathExists <;> simp [MediaLibrary.scanState, MediaLibrary.scan]
  · cases pathExists <;> simp [MediaLibrary.scanState, MediaLibrary.scan]
  · intro prev
    cases pathExists <;> rfl

/-- C10: adding a camera id that is already present returns `True` and
leaves the feeds dictionary unchanged: the existing feed is neither
replaced, restarted nor renamed. -/
theorem add_camera_idempotent (feeds : List (Int × String)) (camera_id : Int)
    (name : String) (startOk : Bool)
    (h : feeds.any (fun p => p.1 == camera_id) = true) :
    CameraModule.add_camera feeds camera_id name startOk = (feeds, true) := by
  unfold CameraModule.add_camera
  simp [h]

/-- Witness for C10: re-adding id 0 under a new name changes nothing. -/
theorem add_camera_idempotent_witness :
    ([((0 : Int), "Camera")].any (fun p => p.1 == (0 : Int)) = true)
    ∧ CameraModule.add_camera [((0 : Int), "Camera")] 0 "Front door" true
        = ([((0 : Int), "Camera")], true) :=
  ⟨by decide, add_camera_idempotent [((0 : Int), "Camera")] 0 "Front door" true (by decide)⟩

end PiDashboard
